import Mathlib

/-!
Shallow embedding of the opendora register schema and validator
(`src/opendora/model.py`).  The source declares one SQLModel class per
regulatory table; each class is a list of `Field(...)` declarations carrying
the constraints (primary key, min/max length, regex, decimal places, ge,
foreign key, title, description), plus, on `UsingEntity`, two pydantic
`field_validator`s and one `model_validator`.  We embed each table as a list
of `ColumnSpec` records mirroring the `Field(...)` keyword arguments, and the
row-validation semantics of pydantic v2 (collect every field error, run the
after-model validator only when all fields passed) as `validate_row`.
-/

/-- A candidate cell value.  `vDec mant scale` stands for the decimal number
`mant * 10 ^ (-scale)`, mirroring Python `Decimal` whose number of decimal
places is `scale`.  `vNone` is Python `None`. -/
inductive Value where
  | vStr (s : String)
  | vInt (n : Int)
  | vDec (mant : Int) (scale : Nat)
  | vBool (b : Bool)
  | vDate (y m d : Nat)
  | vNone
deriving DecidableEq, Repr

/-- Semantic type of a column, from the Python annotation:
`str`, `CountryAlpha2`, `ISO4217`, `Decimal`, `int`, `bool`, `date`. -/
inductive ColKind where
  | kStr
  | kCountry
  | kCurrency
  | kDec
  | kInt
  | kBool
  | kDate
deriving DecidableEq, Repr

/-- One column of a table: the keyword arguments of one `Field(...)` call in
`model.py`.  `required` is false exactly when the source writes
`default=None` with an optional annotation. -/
structure ColumnSpec where
  name : String
  kind : ColKind := ColKind.kStr
  primaryKey : Bool := false
  required : Bool := true
  minLength : Option Nat := none
  maxLength : Option Nat := none
  leiPattern : Bool := false
  decimalPlaces : Option Nat := none
  geZero : Bool := false
  foreignKey : Option (String × String) := none
  title : Option String := none
  description : Option String := none
deriving DecidableEq, Repr

/-- One table class of `model.py`: its class name, `table_code` ClassVar
(`none` for `ICTServicesType`, whose `table_code` is `None`), `table_name`
ClassVar, and its fields in declaration order. -/
structure TableSpec where
  id : String
  code : Option String
  displayName : String
  columns : List ColumnSpec
deriving DecidableEq, Repr

/-- Kinds of per-field violations produced by the declared constraints. -/
inductive ErrKind where
  | missing
  | wrongType
  | tooShort
  | tooLong
  | patternMismatch
  | notISOCountry
  | notISOCurrency
  | tooManyDecimalPlaces
  | belowMinimum
  | custom (msg : String)
deriving DecidableEq, Repr

/-- A field-level violation: the offending column (the empty string stands
for pydantic's model-level location, used by `model_validator`) and the
kind of violation. -/
structure FieldError where
  column : String
  kind : ErrKind
deriving DecidableEq, Repr

/-- A row is an association list from column name to value; a missing key is
an absent field. -/
abbrev Row := List (String × Value)

/-- Outcome of validating one row: the accepted (possibly transformed) row,
or the collected violations. -/
inductive ValidationResult where
  | valid (row : Row) : ValidationResult
  | invalid (errors : List FieldError) : ValidationResult
deriving DecidableEq, Repr

/-- First value bound to `name` in the row, as Python attribute access. -/
def lookupField (row : Row) (name : String) : Option Value :=
  (row.find? (fun p => p.fst == name)).map Prod.snd

/-- Python `str.strip()`: drop leading and trailing whitespace. -/
def pyStrip (s : String) : String :=
  String.mk (((s.data.dropWhile Char.isWhitespace).reverse.dropWhile
    Char.isWhitespace).reverse)

/-- `LEI_PATTERN = r"^[0-9A-Z]\x7b18\x7d[0-9]\x7b2\x7d$"` (model.py line 14):
exactly 20 characters, the first 18 digits or uppercase letters, the last 2
digits. -/
def leiCheck (s : String) : Bool :=
  s.length == 20
    && (s.data.take 18).all (fun c => c.isDigit || (65 ≤ c.toNat && c.toNat ≤ 90))
    && (s.data.drop 18).all Char.isDigit

/-- Length violations against `min_length` / `max_length`. -/
def lengthErrors (c : ColumnSpec) (s : String) : List ErrKind :=
  (match c.minLength with
   | some n => if s.length < n then [ErrKind.tooShort] else []
   | none => []) ++
  (match c.maxLength with
   | some n => if n < s.length then [ErrKind.tooLong] else []
   | none => [])

/-- The officially assigned ISO 3166-1 alpha-2 country codes: the membership
test behind the `CountryAlpha2` annotation (pydantic-extra-types, outside
this repository). -/
def iso3166Alpha2 : List String :=
  ["AD", "AE", "AF", "AG", "AI", "AL", "AM", "AO", "AQ", "AR", "AS", "AT",
   "AU", "AW", "AX", "AZ", "BA", "BB", "BD", "BE", "BF", "BG", "BH", "BI",
   "BJ", "BL", "BM", "BN", "BO", "BQ", "BR", "BS", "BT", "BV", "BW", "BY",
   "BZ", "CA", "CC", "CD", "CF", "CG", "CH", "CI", "CK", "CL", "CM", "CN",
   "CO", "CR", "CU", "CV", "CW", "CX", "CY", "CZ", "DE", "DJ", "DK", "DM",
   "DO", "DZ", "EC", "EE", "EG", "EH", "ER", "ES", "ET", "FI", "FJ", "FK",
   "FM", "FO", "FR", "GA", "GB", "GD", "GE", "GF", "GG", "GH", "GI", "GL",
   "GM", "GN", "GP", "GQ", "GR", "GS", "GT", "GU", "GW", "GY", "HK", "HM",
   "HN", "HR", "HT", "HU", "ID", "IE", "IL", "IM", "IN", "IO", "IQ", "IR",
   "IS", "IT", "JE", "JM", "JO", "JP", "KE", "KG", "KH", "KI", "KM", "KN",
   "KP", "KR", "KW", "KY", "KZ", "LA", "LB", "LC", "LI", "LK", "LR", "LS",
   "LT", "LU", "LV", "LY", "MA", "MC", "MD", "ME", "MF", "MG", "MH", "MK",
   "ML", "MM", "MN", "MO", "MP", "MQ", "MR", "MS", "MT", "MU", "MV", "MW",
   "MX", "MY", "MZ", "NA", "NC", "NE", "NF", "NG", "NI", "NL", "NO", "NP",
   "NR", "NU", "NZ", "OM", "PA", "PE", "PF", "PG", "PH", "PK", "PL", "PM",
   "PN", "PR", "PS", "PT", "PW", "PY", "QA", "RE", "RO", "RS", "RU", "RW",
   "SA", "SB", "SC", "SD", "SE", "SG", "SH", "SI", "SJ", "SK", "SL", "SM",
   "SN", "SO", "SR", "SS", "ST", "SV", "SX", "SY", "SZ", "TC", "TD", "TF",
   "TG", "TH", "TJ", "TK", "TL", "TM", "TN", "TO", "TR", "TT", "TV", "TW",
   "TZ", "UA", "UG", "UM", "US", "UY", "UZ", "VA", "VC", "VE", "VG", "VI",
   "VN", "VU", "WF", "WS", "YE", "YT", "ZA", "ZM", "ZW"]

/-- The active ISO 4217 currency codes: the membership test behind the
`ISO4217` annotation (pydantic-extra-types, outside this repository). -/
def iso4217 : List String :=
  ["AED", "AFN", "ALL", "AMD", "ANG", "AOA", "ARS", "AUD", "AWG", "AZN",
   "BAM", "BBD", "BDT", "BGN", "BHD", "BIF", "BMD", "BND", "BOB", "BOV",
   "BRL", "BSD", "BTN", "BWP", "BYN", "BZD", "CAD", "CDF", "CHE", "CHF",
   "CHW", "CLF", "CLP", "CNY", "COP", "COU", "CRC", "CUC", "CUP", "CVE",
   "CZK", "DJF", "DKK", "DOP", "DZD", "EGP", "ERN", "ETB", "EUR", "FJD",
   "FKP", "GBP", "GEL", "GHS", "GIP", "GMD", "GNF", "GTQ", "GYD", "HKD",
   "HNL", "HRK", "HTG", "HUF", "IDR", "ILS", "INR", "IQD", "IRR", "ISK",
   "JMD", "JOD", "JPY", "KES", "KGS", "KHR", "KMF", "KPW", "KRW", "KWD",
   "KYD", "KZT", "LAK", "LBP", "LKR", "LRD", "LSL", "LYD", "MAD", "MDL",
   "MGA", "MKD", "MMK", "MNT", "MOP", "MRU", "MUR", "MVR", "MWK", "MXN",
   "MXV", "MYR", "MZN", "NAD", "NGN", "NIO", "NOK", "NPR", "NZD", "OMR",
   "PAB", "PEN", "PGK", "PHP", "PKR", "PLN", "PYG", "QAR", "RON", "RSD",
   "RUB", "RWF", "SAR", "SBD", "SCR", "SDG", "SEK", "SGD", "SHP", "SLE",
   "SLL", "SOS", "SRD", "SSP", "STN", "SVC", "SYP", "SZL", "THB", "TJS",
   "TMT", "TND", "TOP", "TRY", "TTD", "TWD", "TZS", "UAH", "UGX", "USD",
   "USN", "UYI", "UYU", "UYW", "UZS", "VED", "VES", "VND", "VUV", "WST",
   "XAF", "XAG", "XAU", "XBA", "XBB", "XBC", "XBD", "XCD", "XDR", "XOF",
   "XPD", "XPF", "XSU", "XUA", "YER", "ZAR", "ZMW", "ZWL"]

/-- Violations of one present value against the column's declared
constraints: type match, string length bounds, the LEI regex, ISO country
and currency membership, `decimal_places`, `ge=0`. -/
def validateValue (c : ColumnSpec) (v : Value) : List ErrKind :=
  match c.kind, v with
  | ColKind.kStr, Value.vStr s =>
      lengthErrors c s ++
        (if c.leiPattern && !leiCheck s then [ErrKind.patternMismatch] else [])
  | ColKind.kCountry, Value.vStr s =>
      lengthErrors c s ++
        (if iso3166Alpha2.contains s then [] else [ErrKind.notISOCountry])
  | ColKind.kCurrency, Value.vStr s =>
      lengthErrors c s ++
        (if iso4217.contains s then [] else [ErrKind.notISOCurrency])
  | ColKind.kDec, Value.vDec mant scale =>
      (match c.decimalPlaces with
       | some dp => if dp < scale then [ErrKind.tooManyDecimalPlaces] else []
       | none => []) ++
        (if c.geZero && mant < 0 then [ErrKind.belowMinimum] else [])
  | ColKind.kInt, Value.vInt _ => []
  | ColKind.kBool, Value.vBool _ => []
  | ColKind.kDate, Value.vDate _ _ _ => []
  | _, _ => [ErrKind.wrongType]

/-- The field the two `UsingEntity` field validators are attached to:
`@field_validator("identification_code")` in the source.  `UsingEntity` has
no field of that name (its fields are `reference_number`, `lei`,
`is_branch`, `branch_code`). -/
def usingEntityValidatorField : String := "identification_code"

/-- `UsingEntity.validate_branch_code` (model.py lines 427-432): reject an
empty or whitespace-only identification code. -/
def validate_branch_code (v : String) : Except String String :=
  if v == "" || pyStrip v == "" then
    Except.error "Identification table_code cannot be empty"
  else Except.ok v

/-- `UsingEntity.validate_branch_id` (model.py lines 434-451): when
`is_branch` is true in the already-validated data, an empty or
whitespace-only code is an error; when `is_branch` is false, an empty or
whitespace-only code is replaced by the sentinel `"NOT_APPLICABLE"`. -/
def validate_branch_id (v : String) (data : Row) : Except String String :=
  match lookupField data "is_branch" with
  | some (Value.vBool true) =>
      if v == "" || pyStrip v == "" then
        Except.error "Branch identification table_code is required when entity is a branch"
      else Except.ok v
  | some (Value.vBool false) =>
      if v == "" || pyStrip v == "" then Except.ok "NOT_APPLICABLE"
      else Except.ok v
  | _ => Except.ok v

/-- Run the field validators attached to column `colName` of table `tid`, in
declaration order, as pydantic does after the core checks of that field.
Only `UsingEntity` declares field validators, both attached to the
(nonexistent) field named by `usingEntityValidatorField`. -/
def applyFieldValidators (tid colName : String) (v : String) (data : Row) :
    Except String String :=
  if tid == "UsingEntity" && colName == usingEntityValidatorField then
    match validate_branch_code v with
    | Except.error e => Except.error e
    | Except.ok v1 => validate_branch_id v1 data
  else Except.ok v

/-- `UsingEntity.validate_entity_branch_consistency` (model.py lines
453-465): after model construction, raise when the entity is not a branch
yet `branch_code` is neither the sentinel nor blank. -/
def validate_entity_branch_consistency (is_branch : Bool) (branch_code : String) :
    Except String Unit :=
  if !is_branch && branch_code != "NOT_APPLICABLE" && pyStrip branch_code != "" then
    Except.error "Branch table_code should not be provided when entity is not a branch"
  else Except.ok ()

/-- Model-level (cross-field) violations of a table, run by pydantic only
after every field validated.  Reported at pydantic's model location, which
we render as column `""`. -/
def crossErrors (tid : String) (row : Row) : List FieldError :=
  if tid == "UsingEntity" then
    match lookupField row "is_branch", lookupField row "branch_code" with
    | some (Value.vBool b), some (Value.vStr code) =>
        match validate_entity_branch_consistency b code with
        | Except.error m => [⟨"", ErrKind.custom m⟩]
        | Except.ok _ => []
    | _, _ => []
  else []

/-- Validate one column of a row: the untagged violations, and the
name/value pair the accepted model would carry (after any field-validator
transformation).  A missing or `None` value on a required column is a
`missing` violation; on an optional column it is accepted and omitted. -/
def processField (tid : String) (c : ColumnSpec) (row : Row) :
    List ErrKind × List (String × Value) :=
  match lookupField row c.name with
  | none => (if c.required then [ErrKind.missing] else [], [])
  | some Value.vNone => (if c.required then [ErrKind.missing] else [], [])
  | some v =>
      match validateValue c v with
      | [] =>
          match v with
          | Value.vStr s =>
              match applyFieldValidators tid c.name s row with
              | Except.error m => ([ErrKind.custom m], [(c.name, v)])
              | Except.ok s2 => ([], [(c.name, Value.vStr s2)])
          | _ => ([], [(c.name, v)])
      | es => (es, [(c.name, v)])

/-- Tag a column's violations with its name. -/
def tagErrors (name : String) (ks : List ErrKind) : List FieldError :=
  ks.map (fun k => ⟨name, k⟩)

/-- All field-level violations of a row against a table, tagged with their
column and collected in column declaration order. -/
def fieldErrorList (t : TableSpec) (row : Row) : List FieldError :=
  t.columns.flatMap (fun c => tagErrors c.name (processField t.id c row).fst)

/-- The accepted model: each column's validated (possibly transformed)
value, in column declaration order. -/
def validatedRow (t : TableSpec) (row : Row) : Row :=
  t.columns.flatMap (fun c => (processField t.id c row).snd)

/-- Row validation with pydantic v2 semantics over the declared constraints:
every column is checked and every violation collected (not only the first);
when no field-level violation exists, the after-model validator runs on the
validated values; the result is a structured `ValidationResult`, never an
uncaught exception. -/
def validate_row (t : TableSpec) (row : Row) : ValidationResult :=
  if fieldErrorList t row = [] then
    match crossErrors t.id (validatedRow t row) with
    | [] => ValidationResult.valid (validatedRow t row)
    | cs => ValidationResult.invalid cs
  else ValidationResult.invalid (fieldErrorList t row)

/-- `MaintainingEntity` (B.01.01). -/
def MaintainingEntityTable : TableSpec :=
  { id := "MaintainingEntity"
    code := some "B.01.01"
    displayName := "Financial entity maintaining the register of information"
    columns :=
      [{ name := "lei", primaryKey := true, minLength := some 20,
         maxLength := some 20, leiPattern := true, title := some "0010",
         description := some "LEI of the entity maintaining the register of information" },
       { name := "name", maxLength := some 255, title := some "0020",
         description := some "Name of the entity" },
       { name := "country", kind := ColKind.kCountry, minLength := some 2,
         maxLength := some 2, title := some "0030",
         description := some "Country of the entity" },
       { name := "type", maxLength := some 255, title := some "0040",
         description := some "Type of entity" },
       { name := "competent_authority", maxLength := some 255,
         title := some "0050", description := some "Competent Authority" },
       { name := "reporting_date", kind := ColKind.kDate, title := some "0060",
         description := some "Date of the reporting" }] }

/-- `RegisterEntity` (B.01.02). -/
def RegisterEntityTable : TableSpec :=
  { id := "RegisterEntity"
    code := some "B.01.02"
    displayName := "List of financial entities within the scope of the register of information"
    columns :=
      [{ name := "lei", primaryKey := true, minLength := some 20,
         maxLength := some 20, leiPattern := true, title := some "0010",
         description := some "LEI of the entity" },
       { name := "name", maxLength := some 255, title := some "0020",
         description := some "Name of the entity" },
       { name := "country", kind := ColKind.kCountry, minLength := some 2,
         maxLength := some 2, title := some "0030",
         description := some "Country of the entity" },
       { name := "type", maxLength := some 255, title := some "0040",
         description := some "Type of entity" },
       { name := "hierarchy", required := false, maxLength := some 255,
         title := some "0050",
         description := some "Hierarchy of the entity within the group (where applicable)" },
       { name := "parent_lei", required := false, minLength := some 20,
         maxLength := some 20, leiPattern := true,
         foreignKey := some ("RegisterEntity", "lei"), title := some "0060",
         description := some "LEI of the direct parent undertaking of the financial entity" },
       { name := "last_update_date", kind := ColKind.kDate, title := some "0070",
         description := some "Date of last update" },
       { name := "integration_date", kind := ColKind.kDate, title := some "0080",
         description := some "Date of integration in the Register of information" },
       { name := "deletion_date", kind := ColKind.kDate, required := false,
         title := some "0090",
         description := some "Date of deletion in the Register of information" },
       { name := "currency", kind := ColKind.kCurrency, required := false,
         minLength := some 3, maxLength := some 3, title := some "0100",
         description := some "Currency" },
       { name := "total_assets", kind := ColKind.kDec, required := false,
         geZero := true, decimalPlaces := some 2, title := some "0110",
         description := some "Value of total assets - of the financial entity" }] }

/-- `Branch` (B.01.03). -/
def BranchTable : TableSpec :=
  { id := "Branch"
    code := some "B.01.03"
    displayName := "List of branches"
    columns :=
      [{ name := "branch_code", primaryKey := true, maxLength := some 255,
         title := some "0010",
         description := some "Identification table_code of the branch" },
       { name := "head_office_lei", primaryKey := true, minLength := some 20,
         maxLength := some 20, leiPattern := true,
         foreignKey := some ("RegisterEntity", "lei"), title := some "0020",
         description := some "LEI of the financial entity head office of the branch" },
       { name := "name", maxLength := some 255, title := some "0030",
         description := some "Name of the branch" },
       { name := "country", kind := ColKind.kCountry, minLength := some 2,
         maxLength := some 2, title := some "0040",
         description := some "Country of the branch" }] }

/-- `GeneralInformation` (B.02.01). -/
def GeneralInformationTable : TableSpec :=
  { id := "GeneralInformation"
    code := some "B.02.01"
    displayName := "Contractual Arrangements – General Information"
    columns :=
      [{ name := "reference_number", primaryKey := true, maxLength := some 255,
         title := some "0010",
         description := some "Contractual arrangement reference number" },
       { name := "type", maxLength := some 255, title := some "0020",
         description := some "Type of contractual arrangement" },
       { name := "overarching_reference_number", required := false,
         maxLength := some 255,
         foreignKey := some ("GeneralInformation", "reference_number"),
         title := some "0030",
         description := some "Overarching contractual arrangement reference number" },
       { name := "currency", kind := ColKind.kCurrency, minLength := some 3,
         maxLength := some 3, title := some "0040",
         description := some "Currency of the amount reported" },
       { name := "annual_expense_or_estimated_cost", kind := ColKind.kDec,
         decimalPlaces := some 2, title := some "0050",
         description := some "Annual expense or estimated cost of the contractual arrangement for the past year" }] }

/-- `SpecificInformation` (B.02.02). -/
def SpecificInformationTable : TableSpec :=
  { id := "SpecificInformation"
    code := some "B.02.02"
    displayName := "Contractual Arrangements – Specific information"
    columns :=
      [{ name := "reference_number", primaryKey := true, maxLength := some 255,
         foreignKey := some ("GeneralInformation", "reference_number"),
         title := some "0010",
         description := some "Contractual arrangement reference number" },
       { name := "lei", primaryKey := true, minLength := some 20,
         maxLength := some 20, leiPattern := true,
         foreignKey := some ("RegisterEntity", "lei"), title := some "0020",
         description := some "LEI of the financial entity making use of the ICT service" },
       { name := "tpp_code", primaryKey := true, maxLength := some 255,
         title := some "0030",
         description := some "Identification table_code of the third-party service provider" },
       { name := "tpp_code_type", required := false, maxLength := some 255,
         title := some "0040",
         description := some "Type of table_code to identify the third-party service provider" },
       { name := "function_identifier", primaryKey := true,
         maxLength := some 255, title := some "0050",
         description := some "Function identifier" },
       { name := "ict_services_type", primaryKey := true, maxLength := some 255,
         title := some "0060", description := some "Type of ICT services" },
       { name := "start_date", kind := ColKind.kDate, title := some "0070",
         description := some "Start date of the contractual arrangement" },
       { name := "end_date", kind := ColKind.kDate, title := some "0080",
         description := some "End date of the contractual arrangement" },
       { name := "reason_of_termination_or_ending", required := false,
         maxLength := some 255, title := some "0090",
         description := some "Reason of the termination or ending of the contractual arrangement" },
       { name := "entity_notice_period", kind := ColKind.kInt,
         required := false, title := some "0100",
         description := some "Notice period for the financial entity" },
       { name := "tpp_notice_period", kind := ColKind.kInt, required := false,
         title := some "0110",
         description := some "Notice period for the ICT third-party service provider" },
       { name := "governing_law_country", kind := ColKind.kCountry,
         required := false, minLength := some 2, maxLength := some 2,
         title := some "0120",
         description := some "Country of the governing law of the contractual arrangement" },
       { name := "ict_services_country", kind := ColKind.kCountry,
         primaryKey := true, minLength := some 2, maxLength := some 2,
         title := some "0130",
         description := some "Country of provision of the ICT services" },
       { name := "data_storage", kind := ColKind.kBool, title := some "0140",
         description := some "Storage of data" },
       { name := "data_at_rest_location", kind := ColKind.kCountry,
         primaryKey := true, minLength := some 2, maxLength := some 2,
         title := some "0150",
         description := some "Location of the data at rest (storage)" },
       { name := "data_processing_location", kind := ColKind.kCountry,
         primaryKey := true, minLength := some 2, maxLength := some 2,
         title := some "0160",
         description := some "Location of management of the data (processing)" },
       { name := "tpp_data_stored_sensitiveness", required := false,
         maxLength := some 255, title := some "0170",
         description := some "Sensitiveness of the data stored by the ICT third-party service provider" },
       { name := "ict_service_reliance", required := false,
         maxLength := some 255, title := some "0180",
         description := some "Level of reliance on the ICT service supporting the critical or important function" }] }

/-- `IntraGroup` (B.02.03). -/
def IntraGroupTable : TableSpec :=
  { id := "IntraGroup"
    code := some "B.02.03"
    displayName := "List of intra-group contractual arrangements"
    columns :=
      [{ name := "reference_number", primaryKey := true, maxLength := some 255,
         title := some "0010",
         description := some "Contractual arrangement with ICT intra-group service provider" },
       { name := "linked_contractual_arrangement_with_ict_tpp",
         primaryKey := true, maxLength := some 255,
         foreignKey := some ("GeneralInformation", "reference_number"),
         title := some "0020",
         description := some "Linked contractual arrangement with ICT third-party service provider" }] }

/-- `ReceivingSigningEntity` (B.03.01). -/
def ReceivingSigningEntityTable : TableSpec :=
  { id := "ReceivingSigningEntity"
    code := some "B.03.01"
    displayName := "Entities signing the Contractual Arrangements for receiving ICT service(s) or on behalf of the entities making use of the ICT service(s)"
    columns :=
      [{ name := "reference_number", primaryKey := true, maxLength := some 255,
         foreignKey := some ("GeneralInformation", "reference_number"),
         title := some "0010",
         description := some "Contractual arrangement reference number" },
       { name := "lei", primaryKey := true, minLength := some 20,
         maxLength := some 20, leiPattern := true,
         foreignKey := some ("RegisterEntity", "lei"), title := some "0020",
         description := some "LEI of the entity signing the contractual arrangement" }] }

/-- `SigningServiceProvider` (B.03.02). -/
def SigningServiceProviderTable : TableSpec :=
  { id := "SigningServiceProvider"
    code := some "B.03.02"
    displayName := "Third-party service providers signing the Contractual Arrangements for providing ICT service(s)"
    columns :=
      [{ name := "reference_number", primaryKey := true, maxLength := some 255,
         foreignKey := some ("GeneralInformation", "reference_number"),
         title := some "0010",
         description := some "Contractual arrangement reference number" },
       { name := "tpp_code", primaryKey := true, maxLength := some 255,
         title := some "0020",
         description := some "Identification table_code of the third-party service provider" },
       { name := "tpp_code_type", required := false, maxLength := some 255,
         title := some "0030",
         description := some "Type of table_code of the third-party service provider" }] }

/-- `ProvidingSigningEntity` (B.03.03). -/
def ProvidingSigningEntityTable : TableSpec :=
  { id := "ProvidingSigningEntity"
    code := some "B.03.03"
    displayName := "Entities signing the Contractual Arrangements for providing ICT service(s)"
    columns :=
      [{ name := "reference_number", primaryKey := true, maxLength := some 255,
         foreignKey := some ("GeneralInformation", "reference_number"),
         title := some "0010",
         description := some "Contractual arrangement reference number" },
       { name := "lei", primaryKey := true, minLength := some 20,
         maxLength := some 20, leiPattern := true,
         foreignKey := some ("RegisterEntity", "lei"), title := some "0020",
         description := some "LEI of the intra-group entity providing ICT service" }] }

/-- `UsingEntity` (B.04.01). -/
def UsingEntityTable : TableSpec :=
  { id := "UsingEntity"
    code := some "B.04.01"
    displayName := "Financial entities making use of the ICT services"
    columns :=
      [{ name := "reference_number", primaryKey := true, maxLength := some 255,
         foreignKey := some ("GeneralInformation", "reference_number"),
         title := some "0010",
         description := some "Contractual arrangement reference number" },
       { name := "lei", primaryKey := true, minLength := some 20,
         maxLength := some 20, leiPattern := true,
         foreignKey := some ("RegisterEntity", "lei"), title := some "0020",
         description := some "LEI of the financial entity" },
       { name := "is_branch", kind := ColKind.kBool, title := some "0030",
         description := some "Is the entity making use of the ICT services a branch of a financial entity?" },
       { name := "branch_code", primaryKey := true, maxLength := some 255,
         title := some "0040",
         description := some "Identification table_code of the branch" }] }

/-- `ServiceProvider` (B.05.01). -/
def ServiceProviderTable : TableSpec :=
  { id := "ServiceProvider"
    code := some "B.05.01"
    displayName := "ICT third-party service provider"
    columns :=
      [{ name := "tpp_code", primaryKey := true, maxLength := some 255,
         title := some "0010",
         description := some "Identification table_code of the third-party service provider" },
       { name := "tpp_code_type", maxLength := some 255, title := some "0020",
         description := some "Type of table_code of the third-party service provider" },
       { name := "additional_identification_code", kind := ColKind.kInt,
         required := false, title := some "0030",
         description := some "Additional identification table_code of the third-party service provider" },
       { name := "additional_identification_code_type", required := false,
         maxLength := some 255, title := some "0040",
         description := some "Type of additional identification table_code of the third-party service provider" },
       { name := "legal_name", maxLength := some 255, title := some "0050",
         description := some "Legal name of the third-party service provider" },
       { name := "name_in_latin_alphabet", required := false,
         maxLength := some 255, title := some "0060",
         description := some "Name of the ICT third-party service provider in Latin alphabet" },
       { name := "person_type", maxLength := some 255, title := some "0070",
         description := some "Type of person of the third-party service provider" },
       { name := "country_of_headquarters", kind := ColKind.kCountry,
         minLength := some 2, maxLength := some 2, title := some "0080",
         description := some "Country of the third-party service provider\'s headquarters" },
       { name := "currency", kind := ColKind.kCurrency, required := false,
         minLength := some 3, maxLength := some 3, title := some "0090",
         description := some "Currency of the amount reported" },
       { name := "total_annual_expense_or_estimated_cost", kind := ColKind.kDec,
         required := false, decimalPlaces := some 2, title := some "0100",
         description := some "Total annual expense or estimated cost of the third-party service provider" },
       { name := "ultimate_parent_undertaking_tpp_code", maxLength := some 255,
         title := some "0110",
         description := some "Identification table_code of the third-party service provider\'s ultimate parent undertaking" },
       { name := "ultimate_parent_undertaking_tpp_code_type", required := false,
         maxLength := some 255, title := some "0120",
         description := some "Type of table_code of the third-party service provider\'s ultimate parent undertaking" }] }

/-- `ICTServicesType` (no regulatory code: its `table_code` ClassVar is
`None`). -/
def ICTServicesTypeTable : TableSpec :=
  { id := "ICTServicesType"
    code := none
    displayName := "Type of ICT Services"
    columns :=
      [{ name := "identifier", primaryKey := true, maxLength := some 50,
         description := some "Type of ICT services identifier" },
       { name := "name", maxLength := some 50,
         description := some "Type of ICT services name" },
       { name := "description", maxLength := some 255,
         description := some "Type of ICT services description" }] }

/-- `SupplyChain` (B.05.02). -/
def SupplyChainTable : TableSpec :=
  { id := "SupplyChain"
    code := some "B.05.02"
    displayName := "ICT service supply chains"
    columns :=
      [{ name := "reference_number", primaryKey := true, maxLength := some 255,
         foreignKey := some ("GeneralInformation", "reference_number"),
         title := some "0010",
         description := some "Contractual arrangement reference number" },
       { name := "ict_services_type", primaryKey := true, maxLength := some 255,
         foreignKey := some ("ICTServicesType", "identifier"),
         title := some "0020", description := some "Type of ICT services" },
       { name := "tpp_code", primaryKey := true, maxLength := some 255,
         foreignKey := some ("ServiceProvider", "tpp_code"),
         title := some "0030",
         description := some "Identification table_code of the third-party service provider" },
       { name := "tpp_code_type", required := false, maxLength := some 255,
         title := some "0040",
         description := some "Type of table_code of the third-party service provider" },
       { name := "rank", kind := ColKind.kInt, primaryKey := true,
         title := some "0050", description := some "Rank" },
       { name := "recipient_code", primaryKey := true, maxLength := some 255,
         title := some "0060",
         description := some "Identification table_code of the recipient of sub-contracted ICT services" },
       { name := "recipient_code_type", required := false,
         maxLength := some 255,
         description := some "Type of table_code of the recipient of sub-contracted ICT services" }] }

/-- `FunctionIdentification` (B.06.01).  Its `lei` field carries
`min_length=20`, `max_length=20` and a foreign key, but — unlike every other
LEI field in the module — no `regex=LEI_PATTERN` and no title. -/
def FunctionIdentificationTable : TableSpec :=
  { id := "FunctionIdentification"
    code := some "B.06.01"
    displayName := "Functions identification"
    columns :=
      [{ name := "identifier", primaryKey := true, maxLength := some 255,
         title := some "0010", description := some "Function identifier" },
       { name := "licensed_activity", maxLength := some 255,
         title := some "0020", description := some "Licenced activity" },
       { name := "function_name", maxLength := some 255, title := some "0030",
         description := some "Function name" },
       { name := "lei", primaryKey := true, minLength := some 20,
         maxLength := some 20,
         foreignKey := some ("RegisterEntity", "lei"),
         description := some "LEI of the financial entity" },
       { name := "assessment", maxLength := some 255, title := some "0040",
         description := some "Criticality or importance assessment" },
       { name := "reasons", maxLength := some 255, title := some "0050",
         description := some "Reasons for criticality or importance" },
       { name := "assessment_date", kind := ColKind.kDate, title := some "0060",
         description := some "Date of the last assessment of criticality or importance" },
       { name := "recovery_time_objective", kind := ColKind.kInt,
         title := some "0070",
         description := some "Recovery time objective of the function" },
       { name := "recovery_point_objective", kind := ColKind.kInt,
         title := some "0080",
         description := some "Recovery point objective of the function" },
       { name := "impact_of_discontinuing", maxLength := some 255,
         title := some "0090",
         description := some "Impact of discontinuing the function" }] }

/-- `Assessment` (B.07.01). -/
def AssessmentTable : TableSpec :=
  { id := "Assessment"
    code := some "B.07.01"
    displayName := "Assessment of the ICT services"
    columns :=
      [{ name := "reference_number", primaryKey := true, maxLength := some 255,
         foreignKey := some ("GeneralInformation", "reference_number"),
         title := some "0010",
         description := some "Contractual arrangement reference number" },
       { name := "tpp_code", primaryKey := true, maxLength := some 255,
         foreignKey := some ("ServiceProvider", "tpp_code"),
         title := some "0020",
         description := some "Identification table_code of the third-party service provider" },
       { name := "tpp_code_type", maxLength := some 255, title := some "0030",
         description := some "Type of table_code of the third-party service provider" },
       { name := "ict_services_type", primaryKey := true, maxLength := some 255,
         foreignKey := some ("ICTServicesType", "identifier"),
         title := some "0040", description := some "Type of ICT services" },
       { name := "ict_tpp_substitutability", maxLength := some 255,
         title := some "0050",
         description := some "Substitutability of the ICT third-party service provider" },
       { name := "reason_if_ict_tpp_is_not_substitutable_or_difficult_to_be_substitutable",
         required := false, maxLength := some 255, title := some "0060",
         description := some "Reason if the ICT third-party service provider is considered not substitutable or difficult to be substitutable" },
       { name := "ict_tpp_last_audit_date", kind := ColKind.kDate,
         title := some "0070",
         description := some "Date of the last audit on the ICT third-party service provider" },
       { name := "has_exit_plan", kind := ColKind.kBool, title := some "0080",
         description := some "Existence of an exit plan" },
       { name := "possibility_of_reintegration", maxLength := some 255,
         title := some "0090",
         description := some "Possibility of reintegration of the contracted ICT service" },
       { name := "discontinuing_impact", maxLength := some 255,
         title := some "0100",
         description := some "Impact of discontinuing the ICT services" },
       { name := "alternative_ict_tpp_identified", kind := ColKind.kBool,
         title := some "0110",
         description := some "Are there alternative ICT third-party service providers identified?" },
       { name := "alternative_ict_tpp_identification", required := false,
         maxLength := some 255, title := some "0120",
         description := some "Identification of alternative ICT TPP" }] }

/-- All table classes declared in `model.py`, in declaration order. -/
def registry : List TableSpec :=
  [MaintainingEntityTable, RegisterEntityTable, BranchTable,
   GeneralInformationTable, SpecificInformationTable, IntraGroupTable,
   ReceivingSigningEntityTable, SigningServiceProviderTable,
   ProvidingSigningEntityTable, UsingEntityTable, ServiceProviderTable,
   ICTServicesTypeTable, SupplyChainTable, FunctionIdentificationTable,
   AssessmentTable]

/-- `get_table_display_name` (model.py lines 731-733). -/
def get_table_display_name (model_class : TableSpec) : String :=
  model_class.displayName

/-- `get_column_display_name` (model.py lines 736-741): the description of
the named field when the field exists and its description is truthy
(non-`None` and non-empty), otherwise the column name itself. -/
def get_column_display_name (model_fields : List ColumnSpec)
    (column_name : String) : String :=
  match model_fields.find? (fun c => c.name == column_name) with
  | some field =>
      match field.description with
      | some d => if d == "" then column_name else d
      | none => column_name
  | none => column_name

/-- A dangling foreign key: the offending column and the referenced table. -/
structure DanglingReferenceError where
  column : String
  referencedTable : String
deriving DecidableEq, Repr

/-- Modelled from the spec: no referential-integrity checking function
exists in `src/` — the source only declares `foreign_key=...` targets on
its fields.  Per spec section 4.1, `check_referential_integrity` walks the
foreign-key columns, invokes the supplied existence-check callback against
the referenced table and key, and reports a `DanglingReferenceError` naming
the offending column and referenced table whenever the callback reports
absence.  A column with no value (or `None`) is skipped. -/
def check_referential_integrity (t : TableSpec) (row : Row)
    (lookup : String → String → Value → Bool) : List DanglingReferenceError :=
  t.columns.flatMap (fun c =>
    match c.foreignKey, lookupField row c.name with
    | some (rt, rk), some v =>
        if v == Value.vNone then []
        else if lookup rt rk v then []
        else [⟨c.name, rt⟩]
    | _, _ => [])

/-- The names of a table's primary-key columns, in declaration order. -/
def pkNames (t : TableSpec) : List String :=
  (t.columns.filter (fun c => c.primaryKey)).map (fun c => c.name)

/-- What `describe` returns for a recognized table. -/
structure TableDescriptor where
  code : Option String
  displayName : String
  columns : List ColumnSpec
  primaryKey : List String
deriving DecidableEq, Repr

/-- Modelled from the spec: no `describe` function exists in `src/` — the
source only exposes the per-class metadata (`table_code`, `table_name`,
the field declarations) and `get_table_display_name`.  Per spec section
4.1, `describe` returns the ordered column list with constraints and
descriptions, the regulatory code and display name of a recognized table,
and fails with `UnknownTableError` otherwise. -/
def describe (table_id : String) : Except String TableDescriptor :=
  match registry.find? (fun t => t.id == table_id) with
  | some t =>
      Except.ok ⟨t.code, t.displayName, t.columns, pkNames t⟩
  | none => Except.error "UnknownTableError"

/-- A violation tagged for column `c` sits in the row's collected error
list whenever `c` is a column of the table. -/
theorem mem_fieldErrorList (t : TableSpec) (row : Row) (c : ColumnSpec)
    (hc : c ∈ t.columns) (k : ErrKind)
    (hk : k ∈ (processField t.id c row).fst) :
    FieldError.mk c.name k ∈ fieldErrorList t row := by
  unfold fieldErrorList tagErrors
  exact List.mem_flatMap.mpr ⟨c, hc, List.mem_map_of_mem _ hk⟩

/-- `lengthErrors` only ever reports a length violation. -/
theorem lengthErrors_kinds (c : ColumnSpec) (s : String) (k : ErrKind)
    (hk : k ∈ lengthErrors c s) :
    k = ErrKind.tooShort ∨ k = ErrKind.tooLong := by
  unfold lengthErrors at hk
  rcases List.mem_append.mp hk with h | h <;> (split at h <;> simp_all)

/-- A row for `UsingEntity` with a well-formed reference number and LEI and
the given branch flag and branch code. -/
def usingRow (b : Bool) (code : String) : Row :=
  [("reference_number", Value.vStr "REF1"),
   ("lei", Value.vStr "ABCDEFGHIJKLMNOPQR12"),
   ("is_branch", Value.vBool b),
   ("branch_code", Value.vStr code)]

/-- C1: of the four ServiceUser branch-consistency cases the claim lists,
the code satisfies three — `is_branch=false, branch_code="NOT_APPLICABLE"`
valid, `is_branch=false, branch_code="XYZ"` a cross-field violation,
`is_branch=true, branch_code="BR1"` valid — but a row with
`is_branch=true, branch_code=""` is ACCEPTED: the only check requiring a
non-empty branch code for a branch (`validate_branch_id`) is attached to the
nonexistent field `identification_code`, and the after-model validator
`validate_entity_branch_consistency` only fires when `is_branch` is false. -/
theorem c1_branch_consistency_cases :
    validate_row UsingEntityTable (usingRow false "NOT_APPLICABLE") =
      ValidationResult.valid (usingRow false "NOT_APPLICABLE") ∧
    validate_row UsingEntityTable (usingRow false "XYZ") =
      ValidationResult.invalid
        [⟨"", ErrKind.custom
          "Branch table_code should not be provided when entity is not a branch"⟩] ∧
    validate_row UsingEntityTable (usingRow true "") =
      ValidationResult.valid (usingRow true "") ∧
    validate_row UsingEntityTable (usingRow true "BR1") =
      ValidationResult.valid (usingRow true "BR1") := by
  refine ⟨?_, ?_, ?_, ?_⟩ <;> decide

/-- C3: a ServiceUser row with `is_branch=false` and an empty `branch_code`
is NOT normalized to `"NOT_APPLICABLE"`: the accepted row keeps
`branch_code=""`.  The normalizer `validate_branch_id` would indeed map the
empty code to the sentinel, but it is attached to the field name
`identification_code`, which is not a column of `UsingEntity`, so it never
runs. -/
theorem c3_no_branch_code_normalization :
    validate_row UsingEntityTable (usingRow false "") =
      ValidationResult.valid (usingRow false "") ∧
    validate_branch_id "" [("is_branch", Value.vBool false)] =
      Except.ok "NOT_APPLICABLE" ∧
    UsingEntityTable.columns.all
      (fun c => c.name != usingEntityValidatorField) = true := by
  refine ⟨by decide, rfl, by decide⟩

/-- A `FunctionIdentification` row whose `lei` has the right length but the
wrong shape (its two final characters are letters, not digits). -/
def functionRowBadLei : Row :=
  [("identifier", Value.vStr "F1"),
   ("licensed_activity", Value.vStr "ACT"),
   ("function_name", Value.vStr "FN"),
   ("lei", Value.vStr "ABCDEFGHIJKLMNOPQRZZ"),
   ("assessment", Value.vStr "CRITICAL"),
   ("reasons", Value.vStr "R"),
   ("assessment_date", Value.vDate 2024 1 1),
   ("recovery_time_objective", Value.vInt 1),
   ("recovery_point_objective", Value.vInt 2),
   ("impact_of_discontinuing", Value.vStr "IMP")]

/-- A `RegisterEntity` row with the same malformed LEI. -/
def registerRowBadLei : Row :=
  [("lei", Value.vStr "ABCDEFGHIJKLMNOPQRZZ"),
   ("name", Value.vStr "N"),
   ("country", Value.vStr "US"),
   ("type", Value.vStr "BANK"),
   ("last_update_date", Value.vDate 2024 1 1),
   ("integration_date", Value.vDate 2024 1 1)]

/-- C2: `"ABCDEFGHIJKLMNOPQRZZ"` does not match `LEI_PATTERN`, and a
`RegisterEntity` row carrying it is rejected with a field-level error on
`lei`; but a `FunctionIdentification` row carrying the same value is
ACCEPTED, because `FunctionIdentification.lei` — alone among the module's
LEI fields — declares no `regex=LEI_PATTERN`. -/
theorem c2_function_identification_lei_unchecked :
    leiCheck "ABCDEFGHIJKLMNOPQRZZ" = false ∧
    validate_row RegisterEntityTable registerRowBadLei =
      ValidationResult.invalid [⟨"lei", ErrKind.patternMismatch⟩] ∧
    validate_row FunctionIdentificationTable functionRowBadLei =
      ValidationResult.valid functionRowBadLei ∧
    (FunctionIdentificationTable.columns.find?
      (fun c => c.name == "lei")).map ColumnSpec.leiPattern = some false := by
  refine ⟨?_, ?_, ?_, ?_⟩ <;> decide

/-- C4: for every table and every candidate row, `validate_row` returns a
structured result (it is a total function, never an exception): either the
accepted row, or a non-empty list of violations in which every column that
has a field-level violation is represented — not only the first. -/
theorem c4_all_violations_reported (t : TableSpec) (ht : t ∈ registry)
    (row : Row) :
    (∃ r, validate_row t row = ValidationResult.valid r) ∨
    (∃ es, validate_row t row = ValidationResult.invalid es ∧ es ≠ [] ∧
      ∀ c ∈ t.columns, (processField t.id c row).fst ≠ [] →
        ∃ e ∈ es, e.column = c.name) := by
  by_cases h : fieldErrorList t row = []
  · unfold validate_row
    rw [if_pos h]
    cases hc : crossErrors t.id (validatedRow t row) with
    | nil => exact Or.inl ⟨_, rfl⟩
    | cons e es =>
        refine Or.inr ⟨e :: es, rfl, by simp, ?_⟩
        intro c hcol hne
        exfalso
        rcases List.exists_mem_of_ne_nil _ hne with ⟨k, hk⟩
        have hm := mem_fieldErrorList t row c hcol k hk
        rw [h] at hm
        simp at hm
  · unfold validate_row
    rw [if_neg h]
    refine Or.inr ⟨fieldErrorList t row, rfl, h, ?_⟩
    intro c hcol hne
    rcases List.exists_mem_of_ne_nil _ hne with ⟨k, hk⟩
    exact ⟨⟨c.name, k⟩, mem_fieldErrorList t row c hcol k hk, rfl⟩

/-- Witness for C4 at a concrete table and row: validating a `UsingEntity`
row with a malformed LEI and a missing reference number yields one of the
two structured outcomes. -/
theorem c4_all_violations_reported_witness :
    (∃ r, validate_row UsingEntityTable
        [("lei", Value.vStr "BAD"), ("is_branch", Value.vBool true),
         ("branch_code", Value.vStr "BR1")] = ValidationResult.valid r) ∨
    (∃ es, validate_row UsingEntityTable
        [("lei", Value.vStr "BAD"), ("is_branch", Value.vBool true),
         ("branch_code", Value.vStr "BR1")] = ValidationResult.invalid es ∧
      es ≠ [] ∧
      ∀ c ∈ UsingEntityTable.columns,
        (processField UsingEntityTable.id c
          [("lei", Value.vStr "BAD"), ("is_branch", Value.vBool true),
           ("branch_code", Value.vStr "BR1")]).fst ≠ [] →
        ∃ e ∈ es, e.column = c.name) :=
  c4_all_violations_reported UsingEntityTable (by decide)
    [("lei", Value.vStr "BAD"), ("is_branch", Value.vBool true),
     ("branch_code", Value.vStr "BR1")]

/-- C5: for every table, row and foreign-key column, if the supplied
existence-lookup callback reports that the referenced key does not exist,
then `check_referential_integrity` returns a `DanglingReferenceError`
naming exactly that column and the referenced table. -/
theorem c5_dangling_reference_reported (t : TableSpec) (ht : t ∈ registry)
    (row : Row) (lookup : String → String → Value → Bool) (c : ColumnSpec)
    (hc : c ∈ t.columns) (rt rk : String)
    (hfk : c.foreignKey = some (rt, rk)) (v : Value)
    (hv : lookupField row c.name = some v) (hvn : v ≠ Value.vNone)
    (hlk : lookup rt rk v = false) :
    DanglingReferenceError.mk c.name rt ∈
      check_referential_integrity t row lookup := by
  unfold check_referential_integrity
  refine List.mem_flatMap.mpr ⟨c, hc, ?_⟩
  rw [hfk, hv]
  have hbeq : (v == Value.vNone) = false := by
    cases hb : v == Value.vNone
    · rfl
    · exact absurd (eq_of_beq hb) hvn
  simp [hbeq, hlk]

/-- Witness for C5: a `Branch` row whose `head_office_lei` the callback
reports as absent produces the dangling-reference error naming
`head_office_lei` and `RegisterEntity`. -/
theorem c5_dangling_reference_reported_witness :
    DanglingReferenceError.mk "head_office_lei" "RegisterEntity" ∈
      check_referential_integrity BranchTable
        [("head_office_lei", Value.vStr "ABCDEFGHIJKLMNOPQR12")]
        (fun _ _ _ => false) :=
  c5_dangling_reference_reported BranchTable (by decide)
    [("head_office_lei", Value.vStr "ABCDEFGHIJKLMNOPQR12")]
    (fun _ _ _ => false)
    (BranchTable.columns.get ⟨1, by decide⟩) (by decide)
    "RegisterEntity" "lei" (by decide)
    (Value.vStr "ABCDEFGHIJKLMNOPQR12") (by decide) (by decide) rfl

/-- C9: row validation is a pure function of the table and the row — no
hidden state — so validating the same row twice yields identical results. -/
theorem c9_validation_deterministic (t : TableSpec) (ht : t ∈ registry)
    (row : Row) :
    validate_row t row = validate_row t row ∧
    check_referential_integrity t row = check_referential_integrity t row :=
  ⟨rfl, rfl⟩

/-- Witness for C9 at a concrete table and row. -/
theorem c9_validation_deterministic_witness :
    validate_row UsingEntityTable (usingRow true "BR1") =
      validate_row UsingEntityTable (usingRow true "BR1") ∧
    check_referential_integrity UsingEntityTable (usingRow true "BR1") =
      check_referential_integrity UsingEntityTable (usingRow true "BR1") :=
  c9_validation_deterministic UsingEntityTable (by decide) (usingRow true "BR1")

/-- Every registry column declaring `decimal_places=2` is a `Decimal`
column. -/
theorem decimal_places_columns_are_decimal (t : TableSpec) (ht : t ∈ registry)
    (c : ColumnSpec) (hc : c ∈ t.columns) (hdp : c.decimalPlaces = some 2) :
    c.kind = ColKind.kDec := by
  have hall : registry.all
      (fun tt => tt.columns.all
        (fun cc => !(cc.decimalPlaces == some 2) || cc.kind == ColKind.kDec)) =
      true := by decide
  have h2 := List.all_eq_true.mp (List.all_eq_true.mp hall t ht) c hc
  rw [hdp] at h2
  simpa using h2

/-- C6: for every monetary (`decimal_places=2`) column of every table, a
decimal value with more than 2 fractional digits is reported as a
violation, and one with at most 2 fractional digits raises no
decimal-places violation. -/
theorem c6_monetary_two_decimal_places (t : TableSpec) (ht : t ∈ registry)
    (c : ColumnSpec) (hc : c ∈ t.columns) (hdp : c.decimalPlaces = some 2)
    (m : Int) (s : Nat) :
    (2 < s →
      ErrKind.tooManyDecimalPlaces ∈ validateValue c (Value.vDec m s)) ∧
    (s ≤ 2 →
      ErrKind.tooManyDecimalPlaces ∉ validateValue c (Value.vDec m s)) := by
  have hk := decimal_places_columns_are_decimal t ht c hc hdp
  rcases c with ⟨cn, ck, cp, cr, cmin, cmax, cl, cd, cg, cf, cti, cde⟩
  simp only at hk hdp
  subst hk
  subst hdp
  constructor
  · intro h
    simp [validateValue, h]
  · intro h
    have h2 : ¬ (2 < s) := by omega
    simp [validateValue, h2]

/-- Witness for C6 on `GeneralInformation.annual_expense_or_estimated_cost`:
`100.999` (three fractional digits) is reported, `100.50` (two) is not. -/
theorem c6_monetary_two_decimal_places_witness :
    ErrKind.tooManyDecimalPlaces ∈
      validateValue (GeneralInformationTable.columns.get ⟨4, by decide⟩)
        (Value.vDec 100999 3) ∧
    ErrKind.tooManyDecimalPlaces ∉
      validateValue (GeneralInformationTable.columns.get ⟨4, by decide⟩)
        (Value.vDec 10050 2) :=
  ⟨(c6_monetary_two_decimal_places GeneralInformationTable (by decide)
      (GeneralInformationTable.columns.get ⟨4, by decide⟩) (by decide)
      (by decide) 100999 3).1 (by decide),
   (c6_monetary_two_decimal_places GeneralInformationTable (by decide)
      (GeneralInformationTable.columns.get ⟨4, by decide⟩) (by decide)
      (by decide) 10050 2).2 (by decide)⟩

/-- C7: for every country-typed and every currency-typed column of every
table, a code outside the respective ISO list is reported as a violation
and a member code raises none; concretely `"ZZ"` is not ISO 3166-1 alpha-2
while `"US"` is, and `"XYZ"` is not ISO 4217 while `"EUR"` is. -/
theorem c7_iso_country_currency_membership (t : TableSpec)
    (ht : t ∈ registry) (c : ColumnSpec) (hc : c ∈ t.columns) :
    ((c.kind = ColKind.kCountry → ∀ s : String,
        (iso3166Alpha2.contains s = false →
          ErrKind.notISOCountry ∈ validateValue c (Value.vStr s)) ∧
        (iso3166Alpha2.contains s = true →
          ErrKind.notISOCountry ∉ validateValue c (Value.vStr s))) ∧
     (c.kind = ColKind.kCurrency → ∀ s : String,
        (iso4217.contains s = false →
          ErrKind.notISOCurrency ∈ validateValue c (Value.vStr s)) ∧
        (iso4217.contains s = true →
          ErrKind.notISOCurrency ∉ validateValue c (Value.vStr s)))) ∧
    (iso3166Alpha2.contains "ZZ" = false ∧
     iso3166Alpha2.contains "US" = true ∧
     iso4217.contains "XYZ" = false ∧
     iso4217.contains "EUR" = true) := by
  refine ⟨⟨?_, ?_⟩, by decide, by decide, by decide, by decide⟩
  · intro hk s
    rcases c with ⟨cn, ck, cp, cr, cmin, cmax, cl, cd, cg, cf, cti, cde⟩
    simp only at hk
    subst hk
    constructor
    · intro h
      have h2 : s ∉ iso3166Alpha2 := by simpa using h
      simp [validateValue, h2]
    · intro h
      simp only [validateValue, h, if_true]
      rw [List.append_nil]
      intro hmem
      rcases lengthErrors_kinds _ _ _ hmem with h2 | h2 <;> simp at h2
  · intro hk s
    rcases c with ⟨cn, ck, cp, cr, cmin, cmax, cl, cd, cg, cf, cti, cde⟩
    simp only at hk
    subst hk
    constructor
    · intro h
      have h2 : s ∉ iso4217 := by simpa using h
      simp [validateValue, h2]
    · intro h
      simp only [validateValue, h, if_true]
      rw [List.append_nil]
      intro hmem
      rcases lengthErrors_kinds _ _ _ hmem with h2 | h2 <;> simp at h2

/-- Witness for C7 on `MaintainingEntity.country` and
`RegisterEntity.currency` at the claim's four concrete codes. -/
theorem c7_iso_country_currency_membership_witness :
    ErrKind.notISOCountry ∈
      validateValue (MaintainingEntityTable.columns.get ⟨2, by decide⟩)
        (Value.vStr "ZZ") ∧
    ErrKind.notISOCountry ∉
      validateValue (MaintainingEntityTable.columns.get ⟨2, by decide⟩)
        (Value.vStr "US") ∧
    ErrKind.notISOCurrency ∈
      validateValue (RegisterEntityTable.columns.get ⟨9, by decide⟩)
        (Value.vStr "XYZ") ∧
    ErrKind.notISOCurrency ∉
      validateValue (RegisterEntityTable.columns.get ⟨9, by decide⟩)
        (Value.vStr "EUR") :=
  ⟨((c7_iso_country_currency_membership MaintainingEntityTable (by decide)
      (MaintainingEntityTable.columns.get ⟨2, by decide⟩) (by decide)).1.1
      (by decide) "ZZ").1 (by decide),
   ((c7_iso_country_currency_membership MaintainingEntityTable (by decide)
      (MaintainingEntityTable.columns.get ⟨2, by decide⟩) (by decide)).1.1
      (by decide) "US").2 (by decide),
   ((c7_iso_country_currency_membership RegisterEntityTable (by decide)
      (RegisterEntityTable.columns.get ⟨9, by decide⟩) (by decide)).1.2
      (by decide) "XYZ").1 (by decide),
   ((c7_iso_country_currency_membership RegisterEntityTable (by decide)
      (RegisterEntityTable.columns.get ⟨9, by decide⟩) (by decide)).1.2
      (by decide) "EUR").2 (by decide)⟩

deriving instance DecidableEq for Except

/-- C8 counterexample: `ICTServicesType` is a recognized table of the
registry, yet the descriptor `describe` returns for it carries no official
regulatory code — its `table_code` ClassVar is `None` in the source — so
`describe` cannot return "the table's official regulatory code" for every
recognized table. -/
theorem c8_counterexample_ict_services_type_has_no_code :
    ICTServicesTypeTable ∈ registry ∧
    (describe "ICTServicesType").map TableDescriptor.code = Except.ok none :=
  ⟨by decide, rfl⟩

/-- C8 (amended): for every recognized table id, `describe` returns the
non-empty ordered column list, primary-key column names that are all column
names, the display name, and the official regulatory code for every table
except `ICTServicesType`, whose code is `None`; an unrecognized id fails
with `UnknownTableError`. -/
theorem c8_describe_amended :
    (∀ t ∈ registry,
      describe t.id =
        Except.ok ⟨t.code, t.displayName, t.columns, pkNames t⟩ ∧
      t.columns ≠ [] ∧
      (∀ n ∈ pkNames t, n ∈ t.columns.map ColumnSpec.name) ∧
      (t.id ≠ "ICTServicesType" → t.code.isSome = true) ∧
      (t.id = "ICTServicesType" → t.code = none)) ∧
    (∀ table_id : String,
      registry.find? (fun t => t.id == table_id) = none →
      describe table_id = Except.error "UnknownTableError") := by
  constructor
  · decide
  · intro table_id h
    unfold describe
    rw [h]

/-- Witness for C8 at a concrete recognized table and a concrete
unrecognized id. -/
theorem c8_describe_amended_witness :
    describe "MaintainingEntity" =
      Except.ok ⟨MaintainingEntityTable.code, MaintainingEntityTable.displayName,
        MaintainingEntityTable.columns, pkNames MaintainingEntityTable⟩ ∧
    describe "NoSuchTable" = Except.error "UnknownTableError" :=
  ⟨(c8_describe_amended.1 MaintainingEntityTable (by decide)).1,
   c8_describe_amended.2 "NoSuchTable" (by decide)⟩

/-- C10: `get_column_display_name` returns the found column's description
when it is present and non-empty, and the given column name itself both
when no column of that name exists and when the column's description is
missing or empty. -/
theorem c10_column_display_name (cols : List ColumnSpec) (name : String) :
    (cols.find? (fun c => c.name == name) = none →
      get_column_display_name cols name = name) ∧
    (∀ c, cols.find? (fun c2 => c2.name == name) = some c →
      (c.description = none → get_column_display_name cols name = name) ∧
      (c.description = some "" → get_column_display_name cols name = name) ∧
      (∀ d, c.description = some d → d ≠ "" →
        get_column_display_name cols name = d)) := by
  constructor
  · intro h
    unfold get_column_display_name
    rw [h]
  · intro c hc
    refine ⟨?_, ?_, ?_⟩
    · intro hd
      simp [get_column_display_name, hc, hd]
    · intro hd
      simp [get_column_display_name, hc, hd]
    · intro d hd hne
      simp [get_column_display_name, hc, hd, hne]

/-- Witness for C10: a column with a description, and an unknown column
name. -/
theorem c10_column_display_name_witness :
    get_column_display_name UsingEntityTable.columns "branch_code" =
      "Identification table_code of the branch" ∧
    get_column_display_name UsingEntityTable.columns "no_such_column" =
      "no_such_column" :=
  ⟨((c10_column_display_name UsingEntityTable.columns "branch_code").2
      (UsingEntityTable.columns.get ⟨3, by decide⟩) (by decide)).2.2
      "Identification table_code of the branch" (by decide) (by decide),
   (c10_column_display_name UsingEntityTable.columns "no_such_column").1
      (by decide)⟩
